import Mathlib

/-!
Shallow embedding of `sv/utils/variants_bed_to_vcf.py`: conversion of a
BED-like table of structural-variant calls into VCF rows.

Modelling conventions:
* A pandas row becomes the structure `Row`; column *presence* (the script
  tests `"hap" in calls`, `"nAlt" in calls`) is table-level, so it lives on
  the run configuration `Run` as the flags `hasHap` / `hasNAlt`.
* `pysam.FastaFile` becomes `FastaFile`: a map from contig name to its full
  sequence, with `fetch` extracting the half-open slice `[s, e)`.  Negative
  or out-of-range bounds are clamped by `Int.toNat` / `List.take`; the
  theorems below only use in-bounds fetches, where the clamp is inert.
* A cell holding a pandas float `NaN` is `Option.none` (the script's
  `GetSeq` tests `type(val) == float` for exactly that case).
* Python `str.upper()` on sequence data is `strUpper`, `val[0:3]` is the
  prefix `strTake val 3`, and `";".join` / `"\t".join` are `joinWith`.
* The script targets a pandas generation in which selecting a column name
  absent from the frame (line 175 selects `format` and `genotype`, which the
  inversion branch never assigns) reindexes to a `NaN` column, and `to_csv`
  serializes `NaN` with its default `na_rep=""`; those two output fields are
  therefore the empty string on the inversion path.
-/

/-- Python `str.upper()` restricted to its per-character ASCII action. -/
def strUpper (s : String) : String := ⟨s.data.map Char.toUpper⟩

/-- Python slice `val[0:n]`. -/
def strTake (s : String) (n : Nat) : String := ⟨s.data.take n⟩

/-- Python `";".join` / `"\t".join` over a list of strings. -/
def joinWith (sep : String) : List String → String
  | [] => ""
  | [x] => x
  | x :: y :: rest => x ++ sep ++ joinWith sep (y :: rest)

/-- One input BED record, with the columns the conversion reads.  `svSeq` is
`none` when the cell holds a pandas float `NaN`. -/
structure Row where
  chrom : String
  tStart : Int
  tEnd : Int
  svType : String
  svSeq : Option String
  hap : String
  nAlt : Int
  qName : String
  qStart : Int
  qEnd : Int

/-- The indexed reference: contig name to full sequence. -/
structure FastaFile where
  contigs : String → String

/-- `pysam.FastaFile.fetch(chrom, s, e)`: the half-open slice `[s, e)` of the
contig, clamped into range. -/
def FastaFile.fetch (g : FastaFile) (c : String) (s e : Int) : String :=
  ⟨((g.contigs c).data.take e.toNat).drop s.toNat⟩

/-- `GetGenotype` (source lines 16-25). -/
def GetGenotype (gt : String) : String :=
  if gt = "HAP0" then "1|0"
  else if gt = "HAP1" then "0|1"
  else if gt = "HOM" then "1|1"
  else "1/1"

/-- `GetType` (source lines 27-31): `val[0:3].upper()` when the subtype
string is longer than 3 characters, else the sentinel `NONE`. -/
def GetType (val : String) : String :=
  if val.length > 3 then strUpper (strTake val 3) else "NONE"

/-- `GetPass` (source lines 33-37). -/
def GetPass (val : Int) : String :=
  if val > 3 then "PASS" else "FAIL"

/-- `GetSeq` (source lines 39-43): a float (`NaN`) cell becomes `"NA"`. -/
def GetSeq (val : Option String) : String :=
  match val with
  | none => "NA"
  | some s => s

/-- Line 108: `origTStart` preserves the raw 0-based BED start before the
`+1` shift of line 109. -/
def Row.origTStart (r : Row) : Int := r.tStart

/-- Line 109: `calls["tStart"] = calls["tStart"] + 1`. -/
def Row.tStartShifted (r : Row) : Int := r.tStart + 1

/-- Line 110: `calls["POS"] = calls["tStart"] + 1` — computed from the
already-shifted `tStart`, but this column is *not* among those selected at
line 175, so it never reaches the output. -/
def Row.posColumn (r : Row) : Int := r.tStartShifted + 1

/-- Line 99: `calls["svLen"]` is overwritten with the length of the
(`NA`-substituted) variant sequence. -/
def Row.svLen (r : Row) : Nat := (GetSeq r.svSeq).length

/-- `str()` of the raw `svSeq` cell as used inside the INFO joins (lines 117
and 155 use `row["svSeq"]` directly, without `GetSeq`); `str` of a float
`NaN` prints `nan`. -/
def Row.svSeqStr (r : Row) : String :=
  match r.svSeq with
  | none => "nan"
  | some s => s

/-- Line 114: `calls["svShort"]`. -/
def Row.svShort (r : Row) : String := GetType r.svType

/-- `GetAltSeq` (source lines 45-52).  Note the insertion branch fetches the
base *at* `origTStart` (interval `[origTStart, origTStart+1)`), while the
non-insertion branch fetches the base at `origTStart - 1`. -/
def GetAltSeq (row : Row) (genome : FastaFile) : String :=
  let seq := GetSeq row.svSeq
  if row.svType = "insertion" then
    strUpper (genome.fetch row.chrom row.origTStart (row.origTStart + 1)) ++ strUpper seq
  else
    strUpper (genome.fetch row.chrom (row.origTStart - 1) row.origTStart)

/-- `GetRefSeq` (source lines 55-62): one base at `origTStart`, except a
deletion takes `svLen + 1` bases starting there. -/
def GetRefSeq (row : Row) (genome : FastaFile) : String :=
  let refLen : Int := if row.svType = "deletion" then (row.svLen : Int) + 1 else 1
  strUpper (genome.fetch row.chrom row.origTStart (row.origTStart + refLen))

/-- One invocation of `convert_bed_to_vcf`: the `--type` selection, the
`--sample` name, and the table-level column-presence flags. -/
structure Run where
  variant_type : String
  sample : String
  hasHap : Bool
  hasNAlt : Bool

/-- Lines 91-94: FILTER from the optional `nAlt` column. -/
def filterOf (run : Run) (row : Row) : String :=
  if run.hasNAlt then GetPass row.nAlt else "PASS"

/-- Lines 132-135 and 142-145: genotype from the optional `hap` column
(identical in the sv and indel branches). -/
def genotypeOf (run : Run) (row : Row) : String :=
  if run.hasHap then GetGenotype row.hap else "./."

/-- `";".join("=".join(map(str, item)) for item in items)`. -/
def infoJoin (l : List (String × String)) : String :=
  joinWith ";" (l.map fun p => p.1 ++ "=" ++ p.2)

/-- Lines 117-121: the sv INFO key/value pairs; `extras` models the
`--fields` pairs, whose value is a per-row column lookup. -/
def svInfoPairs (row : Row) (extras : List (String × (Row → String))) :
    List (String × String) :=
  [("END", toString row.tEnd), ("SVTYPE", row.svShort),
   ("SVLEN", toString row.svLen), ("CONTIG", row.qName),
   ("CONTIG_START", toString row.qStart), ("CONTIG_END", toString row.qEnd),
   ("SEQ", row.svSeqStr)] ++ extras.map fun e => (e.1, e.2 row)

/-- Lines 147-159: the indel INFO key/value pairs — note `SVTYPE` carries the
raw `svType` string, not the `GetType` abbreviation. -/
def indelInfoPairs (run : Run) (row : Row) : List (String × String) :=
  [("END", toString row.tEnd), ("SVTYPE", row.svType),
   ("SVLEN", toString row.svLen), ("SAMPLES", run.sample),
   ("SEQ", row.svSeqStr)]

/-- Lines 162-173: the inversion INFO key/value pairs (no `SEQ`). -/
def invInfoPairs (run : Run) (row : Row) : List (String × String) :=
  [("END", toString row.tEnd), ("SVTYPE", row.svType),
   ("SVLEN", toString row.svLen), ("SAMPLES", run.sample)]

/-- The ten output fields of one data row, as selected and renamed at line
175 (`simple_calls`).  `posOut` comes from the shifted `tStart` column —
line 175 renames `tStart` to `POS`, and the separate `POS` column of line
110 is dropped.  On the inversion path neither `format` nor `genotype` was
ever assigned, so the selection reindexes them to `NaN` and `to_csv`
serializes them as the empty string. -/
structure VcfFields where
  chromOut : String
  posOut : String
  idOut : String
  refOut : String
  altOut : String
  qualOut : String
  filterOut : String
  infoOut : String
  formatOut : String
  genotypeOut : String

/-- The per-row field derivation of `convert_bed_to_vcf` (lines 88-175),
merging the common column assignments with the per-`variant_type` branch. -/
def simple_calls_row (run : Run) (row : Row) (genome : FastaFile)
    (extras : List (String × (Row → String))) : VcfFields :=
  { chromOut := row.chrom
    posOut := toString row.tStartShifted
    idOut := "."
    refOut :=
      if run.variant_type = "indel" then GetRefSeq row genome
      else strUpper (genome.fetch row.chrom row.tStart (row.tStart + 1))
    altOut :=
      if run.variant_type = "sv" then "<" ++ strUpper (strTake row.svType 3) ++ ">"
      else if run.variant_type = "indel" then GetAltSeq row genome
      else "<INV>"
    qualOut := "30"
    filterOut := filterOf run row
    infoOut :=
      if run.variant_type = "sv" then infoJoin (svInfoPairs row extras)
      else if run.variant_type = "indel" then infoJoin (indelInfoPairs run row)
      else infoJoin (invInfoPairs run row)
    formatOut :=
      if run.variant_type = "sv" ∨ run.variant_type = "indel" then "GT" else ""
    genotypeOut :=
      if run.variant_type = "sv" ∨ run.variant_type = "indel" then genotypeOf run row
      else "" }

/-- One serialized data line (tab-joined, as `to_csv(sep="\t")`). -/
def dataLine (run : Run) (row : Row) (genome : FastaFile)
    (extras : List (String × (Row → String))) : String :=
  let f := simple_calls_row run row genome extras
  joinWith "\t" [f.chromOut, f.posOut, f.idOut, f.refOut, f.altOut, f.qualOut,
                 f.filterOut, f.infoOut, f.formatOut, f.genotypeOut]

/-- The `##` preamble written at lines 179-191, parametrized by the
formatted `fileDate`. -/
def preamble (fileDate : String) : List String :=
  ["##fileformat=VCFv4.2",
   "##fileDate=" ++ fileDate,
   "##source=SMRT_SV",
   "##INFO=<ID=SAMPLES,Number=1,Type=String,Description=\"Samples with the given variant\">",
   "##INFO=<ID=SVTYPE,Number=1,Type=String,Description=\"Type of structural variant\">",
   "##INFO=<ID=SVLEN,Number=1,Type=Integer,Description=\"Difference in length between REF and ALT alleles\">",
   "##INFO=<ID=END,Number=1,Type=Integer,Description=\"End coordinate of this variant\">",
   "##INFO=<ID=CONTIG,Number=1,Type=String,Description=\"Name of alternate assembly contig\">",
   "##INFO=<ID=CONTIG_START,Number=1,Type=Integer,Description=\"Start coordinate of this variant in the alternate assembly contig\">",
   "##INFO=<ID=CONTIG_END,Number=1,Type=Integer,Description=\"End coordinate of this variant in the alternate assembly contig\">",
   "##INFO=<ID=REPEAT_TYPE,Number=1,Type=String,Description=\"Repeat classification of variant content\">",
   "##INFO=<ID=SEQ,Number=1,Type=String,Description=\"Sequence associated with variant\">",
   "##FORMAT=<ID=GT,Number=1,Type=String,Description=\"Genotype\">"]

/-- The `#CHROM ...` header row written by `to_csv` (tab-joined column
names, ending in the sample name). -/
def columnHeader (sample : String) : String :=
  joinWith "\t" ["#CHROM", "POS", "ID", "REF", "ALT", "QUAL", "FILTER",
                 "INFO", "FORMAT", sample]

/-- `convert_bed_to_vcf` as the list of output lines.  The unsupported-type
check (lines 68-82) fires before the BED table or the reference is touched,
so on that path the result is an error for *every* table and genome. -/
def convert_bed_to_vcf (run : Run) (rows : List Row) (genome : FastaFile)
    (extras : List (String × (Row → String))) (fileDate : String) :
    Except String (List String) :=
  if run.variant_type = "sv" ∨ run.variant_type = "indel" ∨ run.variant_type = "inversion" then
    Except.ok (preamble fileDate ++
      columnHeader run.sample :: rows.map fun row => dataLine run row genome extras)
  else
    Except.error ("Unsupported variant type: " ++ run.variant_type)

/-- Concrete reference used by witnesses and counterexamples. -/
def genomeEx : FastaFile := { contigs := fun _ => "ACGTACGTACGTACGT" }

/-- Concrete indel run (no `hap`, no `nAlt` column). -/
def runIndel : Run :=
  { variant_type := "indel", sample := "S1", hasHap := false, hasNAlt := false }

/-- Concrete inversion run. -/
def runInv : Run :=
  { variant_type := "inversion", sample := "S1", hasHap := false, hasNAlt := false }

/-- Concrete sv run. -/
def runSv : Run :=
  { variant_type := "sv", sample := "S1", hasHap := true, hasNAlt := true }

/-- Concrete unsupported-type run. -/
def runFoo : Run :=
  { variant_type := "foo", sample := "S1", hasHap := false, hasNAlt := false }

/-- Concrete deletion record: raw BED start 5, variant sequence `ACG`. -/
def row5 : Row :=
  { chrom := "chr1", tStart := 5, tEnd := 9, svType := "deletion",
    svSeq := some "ACG", hap := "HOM", nAlt := 10,
    qName := "ctg", qStart := 0, qEnd := 3 }

/-- Concrete insertion record: raw BED start 1, inserted sequence `tt`. -/
def rowIns : Row :=
  { chrom := "chr1", tStart := 1, tEnd := 1, svType := "insertion",
    svSeq := some "tt", hap := "HOM", nAlt := 10,
    qName := "ctg", qStart := 0, qEnd := 2 }

/-- Concrete inversion record. -/
def rowInv : Row :=
  { chrom := "chr1", tStart := 3, tEnd := 8, svType := "inversion",
    svSeq := some "ACGTA", hap := "HOM", nAlt := 10,
    qName := "ctg", qStart := 0, qEnd := 5 }

/-- Concrete sv record with a 3-character subtype string. -/
def rowDup : Row :=
  { chrom := "chr1", tStart := 2, tEnd := 5, svType := "dup",
    svSeq := some "AAA", hap := "HAP0", nAlt := 5,
    qName := "ctg1", qStart := 0, qEnd := 3 }

/-! ### Helper lemmas about the embedded primitives -/

theorem strUpper_length (s : String) : (strUpper s).length = s.length := by
  show (s.data.map Char.toUpper).length = s.data.length
  exact List.length_map s.data Char.toUpper

theorem strUpper_head (s : String) :
    (strUpper s).data.head? = s.data.head?.map Char.toUpper := by
  show (s.data.map Char.toUpper).head? = s.data.head?.map Char.toUpper
  exact List.head?_map Char.toUpper s.data

theorem fetch_length (g : FastaFile) (c : String) (s e : Int) (hs : 0 ≤ s)
    (hse : s ≤ e) (he : e.toNat ≤ (g.contigs c).length) :
    (g.fetch c s e).length = (e - s).toNat := by
  have hlen : (g.contigs c).length = (g.contigs c).data.length := rfl
  rw [hlen] at he
  show (((g.contigs c).data.take e.toNat).drop s.toNat).length = (e - s).toNat
  rw [List.length_drop, List.length_take]
  omega

theorem fetch_head (g : FastaFile) (c : String) (s e : Int) (hs : 0 ≤ s)
    (hse : s < e) :
    (g.fetch c s e).data.head? = (g.contigs c).data[s.toNat]? := by
  show (((g.contigs c).data.take e.toNat).drop s.toNat).head? = _
  rw [List.head?_drop]
  exact List.getElem?_take_of_lt (by omega)

/-! ### Claims -/

/-- Claim C1 (corrected): the POS value written in the output data line is
the raw 0-based BED start plus 1 — line 175 selects the shifted `tStart`
column as POS — while the separate `POS` column of line 110, equal to the
raw start plus 2, is computed but never selected for output. -/
theorem claim_C1_pos_written (run : Run) (row : Row) (genome : FastaFile)
    (extras : List (String × (Row → String))) :
    row.posColumn = row.tStart + 2 ∧
    (simple_calls_row run row genome extras).posOut = toString (row.tStart + 1) := by
  constructor
  · simp only [Row.posColumn, Row.tStartShifted]
    omega
  · rfl

/-- Claim C1 counterexample: for a record with raw BED start 5 the written
POS field is `6`, not `7` as the claim (raw start plus 2) would require. -/
theorem claim_C1_counterexample :
    (simple_calls_row runIndel row5 genomeEx []).posOut = "6" ∧
    toString ((5 : Int) + 2) = "7" ∧ ("6" : String) ≠ "7" :=
  ⟨rfl, rfl, by decide⟩

/-- Claim C3 (corrected): on an inversion run the output FORMAT field is the
empty string, and the genotype field is *also* the empty string rather than
the missing-call sentinel `./.` — the inversion branch assigns neither
column, and the missing columns serialize as empty. -/
theorem claim_C3_inversion_fields (run : Run) (row : Row) (genome : FastaFile)
    (extras : List (String × (Row → String)))
    (h : run.variant_type = "inversion") :
    (simple_calls_row run row genome extras).formatOut = "" ∧
    (simple_calls_row run row genome extras).genotypeOut = "" := by
  constructor <;> simp [simple_calls_row, h]

/-- Claim C3 witness: the amended statement at a concrete inversion run. -/
theorem claim_C3_witness :
    (simple_calls_row runInv rowInv genomeEx []).formatOut = "" ∧
    (simple_calls_row runInv rowInv genomeEx []).genotypeOut = "" :=
  claim_C3_inversion_fields runInv rowInv genomeEx [] rfl

/-- Claim C3 counterexample: a concrete inversion record whose output
genotype field is the empty string, not the claimed `./.`. -/
theorem claim_C3_counterexample :
    (simple_calls_row runInv rowInv genomeEx []).genotypeOut = "" ∧
    ("" : String) ≠ "./." :=
  ⟨rfl, by decide⟩

/-- Claim C7 (confirmed): genotype derivation is the pure map
`HAP0 ↦ 1|0`, `HAP1 ↦ 0|1`, `HOM ↦ 1|1`, anything else `↦ 1/1`; and on the
runs that derive a genotype (`sv` and `indel`), a table without a `hap`
column gives every record the genotype `./.` regardless of its fields. -/
theorem claim_C7_genotype_map :
    GetGenotype "HAP0" = "1|0" ∧ GetGenotype "HAP1" = "0|1" ∧
    GetGenotype "HOM" = "1|1" ∧
    (∀ g : String, g ≠ "HAP0" → g ≠ "HAP1" → g ≠ "HOM" →
      GetGenotype g = "1/1") ∧
    (∀ (run : Run) (row : Row) (genome : FastaFile)
        (extras : List (String × (Row → String))),
      run.hasHap = false →
      (run.variant_type = "sv" ∨ run.variant_type = "indel") →
      (simple_calls_row run row genome extras).genotypeOut = "./.") := by
  refine ⟨rfl, rfl, rfl, ?_, ?_⟩
  · intro g h0 h1 h2
    simp [GetGenotype, h0, h1, h2]
  · intro run row genome extras hh hv
    have hgo : (simple_calls_row run row genome extras).genotypeOut =
        if run.variant_type = "sv" ∨ run.variant_type = "indel" then
          genotypeOf run row
        else "" := rfl
    rw [hgo, if_pos hv]
    simp [genotypeOf, hh]

/-- Claim C7 witness: the unmapped-tag fallback at `"XYZ"`, and the
missing-column sentinel at a concrete `hap`-less indel run. -/
theorem claim_C7_witness :
    GetGenotype "XYZ" = "1/1" ∧
    (simple_calls_row runIndel row5 genomeEx []).genotypeOut = "./." :=
  ⟨claim_C7_genotype_map.2.2.2.1 "XYZ" (by decide) (by decide) (by decide),
   claim_C7_genotype_map.2.2.2.2 runIndel row5 genomeEx [] rfl (Or.inr rfl)⟩

/-- Claim C8 (confirmed): the FILTER field is `FAIL` exactly when the table
has an `nAlt` column and the record's value is at most 3; otherwise it is
`PASS`. -/
theorem claim_C8_filter_iff (run : Run) (row : Row) (genome : FastaFile)
    (extras : List (String × (Row → String))) :
    ((simple_calls_row run row genome extras).filterOut = "FAIL" ∨
      (simple_calls_row run row genome extras).filterOut = "PASS") ∧
    ((simple_calls_row run row genome extras).filterOut = "FAIL" ↔
      run.hasNAlt = true ∧ row.nAlt ≤ 3) := by
  have hfo : (simple_calls_row run row genome extras).filterOut =
      filterOf run row := rfl
  rw [hfo]
  cases hN : run.hasNAlt
  · simp [filterOf, hN]
  · simp only [filterOf, hN, if_true, GetPass]
    split_ifs with h3
    · constructor
      · exact Or.inr rfl
      · simp only [true_and]
        constructor
        · intro hpf
          exact absurd hpf (by decide)
        · intro hle
          omega
    · constructor
      · exact Or.inl rfl
      · simp only [true_and]
        constructor
        · intro _
          omega
        · intro _
          trivial

/-- Claim C9 (confirmed): any `--type` other than `sv`, `indel`, or
`inversion` makes the conversion fail with the unsupported-type error, for
every input table and reference — no output is produced. -/
theorem claim_C9_unsupported_type (run : Run) (rows : List Row)
    (genome : FastaFile) (extras : List (String × (Row → String)))
    (fileDate : String) (h1 : run.variant_type ≠ "sv")
    (h2 : run.variant_type ≠ "indel") (h3 : run.variant_type ≠ "inversion") :
    convert_bed_to_vcf run rows genome extras fileDate =
      Except.error ("Unsupported variant type: " ++ run.variant_type) := by
  simp [convert_bed_to_vcf, h1, h2, h3]

/-- Claim C9 witness: the error at the concrete type `foo`. -/
theorem claim_C9_witness :
    convert_bed_to_vcf runFoo [] genomeEx [] "20260101" =
      Except.error "Unsupported variant type: foo" :=
  claim_C9_unsupported_type runFoo [] genomeEx [] "20260101"
    (by decide) (by decide) (by decide)

/-- Claim C2 (corrected): for every supported type the written file is the
fixed `##` preamble — which has 13 lines (fileformat, fileDate, source, nine
INFO declarations and one FORMAT declaration), not 9 — followed by the
tab-separated `#CHROM ...` header row and one data line per input record in
input order. -/
theorem claim_C2_output_shape (run : Run) (rows : List Row)
    (genome : FastaFile) (extras : List (String × (Row → String)))
    (fileDate : String)
    (h : run.variant_type = "sv" ∨ run.variant_type = "indel" ∨
      run.variant_type = "inversion") :
    convert_bed_to_vcf run rows genome extras fileDate =
      Except.ok (preamble fileDate ++
        columnHeader run.sample ::
          rows.map fun row => dataLine run row genome extras) ∧
    (preamble fileDate).length = 13 ∧
    (∀ l ∈ preamble fileDate, l.data.take 2 = ['#', '#']) ∧
    (columnHeader run.sample).data.take 2 = ['#', 'C'] ∧
    (rows.map fun row => dataLine run row genome extras).length = rows.length := by
  refine ⟨?_, rfl, ?_, rfl, by simp⟩
  · rw [convert_bed_to_vcf, if_pos h]
  · intro l hl
    simp only [preamble, List.mem_cons, List.not_mem_nil, or_false] at hl
    rcases hl with rfl | rfl | rfl | rfl | rfl | rfl | rfl | rfl | rfl | rfl |
      rfl | rfl | rfl <;> rfl

/-- Claim C2 witness: the output shape at a concrete one-record indel run. -/
theorem claim_C2_witness :
    convert_bed_to_vcf runIndel [row5] genomeEx [] "20260101" =
      Except.ok (preamble "20260101" ++
        columnHeader "S1" ::
          [row5].map fun row => dataLine runIndel row genomeEx []) ∧
    (preamble "20260101").length = 13 := by
  have h := claim_C2_output_shape runIndel [row5] genomeEx [] "20260101"
    (Or.inr (Or.inl rfl))
  exact ⟨h.1, h.2.1⟩

/-- Claim C2 counterexample: a concrete run whose written file contains 13
lines starting with `##`, refuting the claimed count of exactly 9. -/
theorem claim_C2_counterexample :
    (convert_bed_to_vcf runIndel [row5] genomeEx [] "20260101").toOption.map
      (fun ls => (ls.filter fun l => l.data.take 2 == ['#', '#']).length) =
      some 13 ∧ (13 : Nat) ≠ 9 :=
  ⟨by decide, by decide⟩

/-- Claim C4 (corrected): for an indel-insertion record, ALT is the
upper-cased reference base *at* `origTStart` (the fetch interval is
`[origTStart, origTStart+1)`, not the base immediately preceding
`origTStart`) concatenated with the upper-cased variant sequence, and ALT
length equals `1 + length(variant sequence)`. -/
theorem claim_C4_insertion_alt (row : Row) (genome : FastaFile)
    (h : row.svType = "insertion") (hs : 0 ≤ row.origTStart)
    (he : (row.origTStart + 1).toNat ≤ (genome.contigs row.chrom).length) :
    GetAltSeq row genome =
      strUpper (genome.fetch row.chrom row.origTStart (row.origTStart + 1)) ++
        strUpper (GetSeq row.svSeq) ∧
    (GetAltSeq row genome).length = 1 + (GetSeq row.svSeq).length := by
  have halt : GetAltSeq row genome =
      strUpper (genome.fetch row.chrom row.origTStart (row.origTStart + 1)) ++
        strUpper (GetSeq row.svSeq) := by
    simp [GetAltSeq, h]
  refine ⟨halt, ?_⟩
  rw [halt, String.length_append, strUpper_length, strUpper_length,
    fetch_length genome row.chrom _ _ hs (by omega) he]
  omega

/-- Claim C4 witness: the amended statement at a concrete insertion record
with raw start 1 on the contig `ACGTACGTACGTACGT`. -/
theorem claim_C4_witness :
    GetAltSeq rowIns genomeEx =
      strUpper (genomeEx.fetch rowIns.chrom rowIns.origTStart
        (rowIns.origTStart + 1)) ++ strUpper (GetSeq rowIns.svSeq) ∧
    (GetAltSeq rowIns genomeEx).length = 1 + (GetSeq rowIns.svSeq).length :=
  claim_C4_insertion_alt rowIns genomeEx rfl (by decide) (by decide)

/-- Claim C4 counterexample: on the contig `ACGT...` with `origTStart = 1`
and inserted sequence `tt`, the code produces ALT `CTT` (base at position
1), while the base immediately preceding `origTStart` would give `ATT`. -/
theorem claim_C4_counterexample :
    GetAltSeq rowIns genomeEx = "CTT" ∧
    strUpper (genomeEx.fetch rowIns.chrom (rowIns.origTStart - 1)
        rowIns.origTStart) ++ strUpper (GetSeq rowIns.svSeq) = "ATT" ∧
    ("CTT" : String) ≠ "ATT" :=
  ⟨by decide, by decide, by decide⟩

/-- Claim C5 (confirmed): for an indel-deletion record (in bounds, with
upper-case reference bases) the derived REF has length `svLen + 1`, its
first base is the genome base at `origTStart`, and the derived ALT is the
single upper-cased reference base at `origTStart - 1`, i.e. immediately
before the deleted span. -/
theorem claim_C5_deletion_ref_alt (row : Row) (genome : FastaFile)
    (c d : Char) (h : row.svType = "deletion") (h1 : 1 ≤ row.origTStart)
    (hlen : row.origTStart.toNat + row.svLen + 1 ≤
      (genome.contigs row.chrom).length)
    (hc : (genome.contigs row.chrom).data[row.origTStart.toNat]? = some c)
    (hcu : c.toUpper = c)
    (hd : (genome.contigs row.chrom).data[(row.origTStart - 1).toNat]? = some d)
    (hdu : d.toUpper = d) :
    (GetRefSeq row genome).length = row.svLen + 1 ∧
    (GetRefSeq row genome).data.head? = some c ∧
    (GetAltSeq row genome).length = 1 ∧
    (GetAltSeq row genome).data.head? = some d := by
  have href : GetRefSeq row genome =
      strUpper (genome.fetch row.chrom row.origTStart
        (row.origTStart + ((row.svLen : Int) + 1))) := by
    simp [GetRefSeq, h]
  have halt : GetAltSeq row genome =
      strUpper (genome.fetch row.chrom (row.origTStart - 1) row.origTStart) := by
    simp [GetAltSeq, h]
  refine ⟨?_, ?_, ?_, ?_⟩
  · rw [href, strUpper_length,
      fetch_length genome row.chrom _ _ (by omega) (by omega) (by omega)]
    omega
  · rw [href, strUpper_head,
      fetch_head genome row.chrom _ _ (by omega) (by omega), hc]
    simp [hcu]
  · rw [halt, strUpper_length,
      fetch_length genome row.chrom _ _ (by omega) (by omega) (by omega)]
    omega
  · rw [halt, strUpper_head,
      fetch_head genome row.chrom _ _ (by omega) (by omega), hd]
    simp [hdu]

/-- Claim C5 witness: the deletion rules at a concrete record (raw start 5,
event size 3) on the contig `ACGTACGTACGTACGT`. -/
theorem claim_C5_witness :
    (GetRefSeq row5 genomeEx).length = row5.svLen + 1 ∧
    (GetRefSeq row5 genomeEx).data.head? = some 'C' ∧
    (GetAltSeq row5 genomeEx).length = 1 ∧
    (GetAltSeq row5 genomeEx).data.head? = some 'A' :=
  claim_C5_deletion_ref_alt row5 genomeEx 'C' 'A' rfl (by decide) (by decide)
    (by decide) (by decide) (by decide) (by decide)

/-- Claim C6 (confirmed): for every indel record the INFO string is the keys
`END, SVTYPE, SVLEN, SAMPLES, SEQ` in that order, joined as `key=value`
pairs by `;`, with the raw non-abbreviated subtype string as the SVTYPE
value. -/
theorem claim_C6_indel_info (run : Run) (row : Row) (genome : FastaFile)
    (extras : List (String × (Row → String)))
    (h : run.variant_type = "indel") :
    (simple_calls_row run row genome extras).infoOut =
      joinWith ";" ["END=" ++ toString row.tEnd, "SVTYPE=" ++ row.svType,
        "SVLEN=" ++ toString row.svLen, "SAMPLES=" ++ run.sample,
        "SEQ=" ++ row.svSeqStr] := by
  have hio : (simple_calls_row run row genome extras).infoOut =
      if run.variant_type = "sv" then infoJoin (svInfoPairs row extras)
      else if run.variant_type = "indel" then infoJoin (indelInfoPairs run row)
      else infoJoin (invInfoPairs run row) := rfl
  rw [hio, h]
  rfl

/-- Claim C6 witness: the INFO string of a concrete indel record. -/
theorem claim_C6_witness :
    (simple_calls_row runIndel row5 genomeEx []).infoOut =
      joinWith ";" ["END=" ++ toString row5.tEnd, "SVTYPE=" ++ row5.svType,
        "SVLEN=" ++ toString row5.svLen, "SAMPLES=" ++ runIndel.sample,
        "SEQ=" ++ row5.svSeqStr] :=
  claim_C6_indel_info runIndel row5 genomeEx [] rfl

/-- Claim C10 (confirmed): for an sv record whose subtype string has length
at most 3, the INFO pair list carries `SVTYPE=NONE` (the `GetType`
sentinel), while ALT is `<` ++ the upper-cased raw subtype ++ `>`, and that
upper-cased subtype can never equal `NONE` (it is too short), so the two
disagree. -/
theorem claim_C10_short_subtype (run : Run) (row : Row) (genome : FastaFile)
    (extras : List (String × (Row → String)))
    (hsv : run.variant_type = "sv") (hlen : row.svType.length ≤ 3) :
    (svInfoPairs row extras)[1]? = some ("SVTYPE", "NONE") ∧
    (simple_calls_row run row genome extras).altOut =
      "<" ++ strUpper row.svType ++ ">" ∧
    strUpper row.svType ≠ "NONE" := by
  have hshort : row.svShort = "NONE" := by
    simp only [Row.svShort, GetType]
    rw [if_neg (by omega)]
  have htake : strTake row.svType 3 = row.svType :=
    congrArg String.mk (List.take_of_length_le hlen)
  refine ⟨?_, ?_, ?_⟩
  · simp [svInfoPairs, hshort]
  · have hao : (simple_calls_row run row genome extras).altOut =
        if run.variant_type = "sv" then
          "<" ++ strUpper (strTake row.svType 3) ++ ">"
        else if run.variant_type = "indel" then GetAltSeq row genome
        else "<INV>" := rfl
    rw [hao, hsv, if_pos rfl, htake]
  · intro hEq
    have hL := congrArg String.length hEq
    rw [strUpper_length] at hL
    have : ("NONE" : String).length = 4 := rfl
    omega

/-- Claim C10 witness: the disagreement at a concrete sv record with the
3-character subtype `dup`: `SVTYPE=NONE` but ALT `<DUP>`. -/
theorem claim_C10_witness :
    (svInfoPairs rowDup [])[1]? = some ("SVTYPE", "NONE") ∧
    (simple_calls_row runSv rowDup genomeEx []).altOut =
      "<" ++ strUpper rowDup.svType ++ ">" ∧
    strUpper rowDup.svType ≠ "NONE" :=
  claim_C10_short_subtype runSv rowDup genomeEx [] rfl (by decide)
